import Mathlib

/-!
Verification of the ReceiptlyPlus receipt-formatting core.

This file gives a shallow embedding, in Lean 4, of the receipt text/number
formatting pipeline of the ReceiptlyPlus repository:

* `convertNumberToWords` — number-to-words conversion
  (src/src/utils/pdf.js lines 9-39, src/unnamed/part_001 lines 37-67; the two
  copies are textually identical);
* `formatDateForDisplay` — display-date formatting
  (src/unnamed/part_001 lines 82-112, the mobile variant with the validity
  guard; the web variant in src/src/utils/pdf.js lines 46-54 lacks the guard);
* `generateReceiptText` — receipt text composition
  (src/unnamed/part_001 lines 140-158, the mobile variant with fallbacks);
* `generateReceiptNumber` — timestamp-policy receipt numbers
  (src/src/utils/pdf.js lines 210-217, src/unnamed/part_001 lines 362-369);
* `generateReceiptNumberSeq` — the sequence-policy receipt numbers, modelled
  from the spec (the policy is documented in README.md but its code is not
  under src/);
* the fit-to-page geometry of `generateReceiptPDF`
  (src/src/utils/pdf.js lines 166-176, src/unnamed/part_001 lines 281-291).

JavaScript host behaviour is modelled explicitly: undefined values are
`Option.none`, array indexing out of range yields `none`, string coercion of
`undefined` yields the string "undefined", the falsy-or operator `||` on
strings treats `undefined` and the empty string as falsy, and the ambient
current time is threaded as an explicit parameter.
-/

/-- Models JavaScript string coercion of a possibly-undefined string value:
`undefined` coerces to the literal text "undefined" inside template strings
and `+` concatenation. -/
def jsToString : Option String → String
  | some s => s
  | none => "undefined"

/-- Models the JavaScript expression `x || d` where `x` is a possibly-undefined
string: `undefined` and the empty string are falsy, every other string is
truthy. -/
def jsOr (x : Option String) (d : String) : String :=
  match x with
  | none => d
  | some s => if s = "" then d else s

/-- Models the JavaScript expression `s || d` where `s` is a (defined) string:
only the empty string is falsy. -/
def strOr (s d : String) : String :=
  if s = "" then d else s

/-- Models JavaScript array indexing `l[i]`: a negative or out-of-range index
yields `undefined` (here `none`). -/
def jsIndex (l : List String) (i : Int) : Option String :=
  if i < 0 then none else l[i.toNat]?

/-- The `ones` word table of `convertNumberToWords`. -/
def ones : List String :=
  ["", "One", "Two", "Three", "Four", "Five", "Six", "Seven", "Eight", "Nine"]

/-- The `teens` word table of `convertNumberToWords`. -/
def teens : List String :=
  ["Ten", "Eleven", "Twelve", "Thirteen", "Fourteen", "Fifteen", "Sixteen",
   "Seventeen", "Eighteen", "Nineteen"]

/-- The `tens` word table of `convertNumberToWords`. -/
def tens : List String :=
  ["", "", "Twenty", "Thirty", "Forty", "Fifty", "Sixty", "Seventy", "Eighty",
   "Ninety"]

/-- The `scales` label table of `convertNumberToWords`. -/
def scales : List String := ["", "Thousand", "Lakh", "Crore"]

/-- The branches of `convertNumberToWords` taken for inputs below 100
(pdf.js lines 11, 18-20).  The function is only invoked on inputs below 100
from the recursive call sites; the embedding mirrors those branches.
A lookup at a negative index yields `none` (JavaScript `undefined`), so for a
negative input the result is `none`, exactly as `return ones[number]` returns
`undefined` in the source. -/
def convertUnder100 (num : Int) : Option String :=
  if num = 0 then some "Zero"
  else if num < 10 then jsIndex ones num
  else if num < 20 then jsIndex teens (num - 10)
  else
    some (jsToString (jsIndex tens (num.toNat / 10 : Nat)) ++
      (if num.toNat % 10 ≠ 0 then " " ++ jsToString (jsIndex ones (num.toNat % 10 : Nat)) else ""))

/-- The branches of `convertNumberToWords` taken for inputs below 1000
(pdf.js lines 11, 18-21).  The recursive call at `number % 100` of the
hundreds branch lands in the sub-100 branches, embedded by
`convertUnder100`. -/
def convertSmall (num : Int) : Option String :=
  if num < 100 then convertUnder100 num
  else
    some (jsToString (jsIndex ones (num.toNat / 100 : Nat)) ++ " Hundred" ++
      (if num.toNat % 100 ≠ 0 then " " ++ jsToString (convertUnder100 (num.toNat % 100 : Nat)) else ""))

/-- Models the truthiness test `scales[scaleIndex] ? ' ' + scales[scaleIndex] : ''`
of pdf.js line 32: both `undefined` (index out of range) and the empty string
are falsy, so no label text is emitted for them. -/
def scaleSuffix (i : Nat) : String :=
  match jsIndex scales (i : Int) with
  | none => ""
  | some s => if s = "" then "" else " " ++ s

/-- The `while (remaining > 0)` loop of `convertNumberToWords`
(pdf.js lines 24-36).  The first argument is fuel bounding the number of
iterations; callers pass the initial `remaining` itself, which always
suffices since `remaining` is divided by 1000 on every iteration.  Each
nonzero chunk (always in 1..999, hence converted by the sub-1000 branches,
embedded by `convertSmall`) is prepended together with its scale label. -/
def chunkLoop : Nat → Nat → Nat → String → String
  | 0, _, _, result => result
  | fuel + 1, remaining, scaleIndex, result =>
    if remaining = 0 then result
    else
      let chunk := remaining % 1000
      let result2 :=
        if chunk = 0 then result
        else jsToString (convertSmall (chunk : Nat)) ++ scaleSuffix scaleIndex ++
          (if result = "" then "" else " " ++ result)
      chunkLoop fuel (remaining / 1000) (scaleIndex + 1) result2

/-- Embedding of `convertNumberToWords` (pdf.js lines 9-39) on an integer
input; `parseInt` is the identity on integer inputs, and `isNaN` is false, so
the guard of line 11 reduces to the `number === 0` test.  Inputs below 1000
are handled by the source branches of lines 18-21 (`convertSmall`), larger
inputs by the grouping loop of lines 24-36 (`chunkLoop`).  The result is
`none` exactly when the source returns `undefined` rather than a string. -/
def convertNumberToWords (num : Int) : Option String :=
  if num < 1000 then convertSmall num
  else some (chunkLoop num.toNat num.toNat 0 "")

/-- Helper of `parseIntJS`: the numeric value of a list of decimal digits. -/
def digitsToNat (l : List Char) : Nat :=
  l.foldl (fun acc c => 10 * acc + (c.toNat - 48)) 0

/-- Models JavaScript `parseInt` on a string: an optional sign followed by the
longest leading run of decimal digits; `none` models `NaN` (no leading
digit). -/
def parseIntJS (s : String) : Option Int :=
  let core : List Char → Int → Option Int := fun l sign =>
    let ds := l.takeWhile Char.isDigit
    if ds = [] then none else some (sign * (digitsToNat ds : Int))
  match s.data with
  | '-' :: rest => core rest (-1)
  | '+' :: rest => core rest 1
  | l => core l 1

/-- Embedding of `convertNumberToWords` applied to a string input, as
`generateReceiptText` does with the amount field: `parseInt` first, and the
`isNaN` guard of line 11 maps an unparseable string to "Zero". -/
def convertNumberToWordsStr (num : String) : Option String :=
  match parseIntJS num with
  | none => some "Zero"
  | some k => convertNumberToWords k

/-- Claim C1 concerns the grouping of `convertNumberToWords` above 999.
The loop peels uniform 3-digit groups (divisor 1000 at every step) and labels
them with `["", "Thousand", "Lakh", "Crore"]`, so the labels "Lakh" and
"Crore" are attached to the 10^6 and 10^9 groups: 1500000 converts to
"One Lakh Five Hundred Thousand" (not "Fifteen Lakh" as the JSDoc example of
the function itself states) and 10000000 converts to "Ten Lakh" (not
"One Crore").  Only the 50000 seed case of the claim holds. -/
theorem claim_C1 :
    convertNumberToWords 50000 = some "Fifty Thousand" ∧
    convertNumberToWords 1500000 = some "One Lakh Five Hundred Thousand" ∧
    convertNumberToWords 10000000 = some "Ten Lakh" ∧
    convertNumberToWords 100000000 = some "One Hundred Lakh" := by
  refine ⟨?_, ?_, ?_, ?_⟩ <;> decide

/-- Claim C9: for every integer n with -9 ≤ n ≤ -1, `convertNumberToWords`
does not return a string: the guard maps only NaN and 0 to "Zero", the
`number < 10` branch is taken, and `ones[number]` at a negative index is
`undefined` (`none` in the embedding). -/
theorem claim_C9 (n : Int) (h1 : -9 ≤ n) (h2 : n ≤ -1) :
    convertNumberToWords n = none := by
  have hlt : n < 1000 := by omega
  have hlt100 : n < 100 := by omega
  have hne : ¬ n = 0 := by omega
  have hlt10 : n < 10 := by omega
  have hneg : n < 0 := by omega
  simp only [convertNumberToWords, convertSmall, convertUnder100, if_pos hlt,
    if_pos hlt100, if_neg hne, if_pos hlt10, jsIndex, if_pos hneg]

/-- Witness for claim C9 at the concrete input -5. -/
theorem claim_C9_witness : convertNumberToWords (-5) = none :=
  claim_C9 (-5) (by decide) (by decide)

/-- Claim C10: for every integer n ≥ 10^12 the conversion returns normally (a
string, never `undefined`): the grouping loop concatenates groups at scale
index 4 and above with no scale label, because `scales[scaleIndex]` is
`undefined`, hence falsy, and the label text is skipped.  Concretely 10^12
converts to just "One", and 10^12 + 1 converts to "One One" (the scale-4
group carries no label). -/
theorem claim_C10 :
    (∀ n : Int, 10 ^ 12 ≤ n → ∃ s, convertNumberToWords n = some s) ∧
    convertNumberToWords (10 ^ 12) = some "One" ∧
    convertNumberToWords (10 ^ 12 + 1) = some "One One" := by
  refine ⟨?_, by decide, by decide⟩
  intro n hn
  have h : ¬ n < 1000 := by omega
  exact ⟨_, by rw [convertNumberToWords, if_neg h]⟩

/-- Witness for claim C10: the universally quantified part instantiated at
10^12 itself. -/
theorem claim_C10_witness : ∃ s, convertNumberToWords (10 ^ 12) = some s :=
  claim_C10.1 (10 ^ 12) (by norm_num)

/-- Helper of `natToStr`: most-significant-first decimal digit characters of a
natural number.  The first argument is fuel bounding the recursion depth;
callers pass `n + 1`, which always suffices since the argument is divided by
10 at every level. -/
def natDigitsAux : Nat → Nat → List Char
  | 0, _ => []
  | fuel + 1, n =>
    if n < 10 then [Char.ofNat (48 + n)]
    else natDigitsAux fuel (n / 10) ++ [Char.ofNat (48 + n % 10)]

/-- Models JavaScript number-to-string coercion (base-10 `toString`) for
non-negative integers, as used by template interpolation and by
`padStart`. -/
def natToStr (n : Nat) : String :=
  String.mk (natDigitsAux (n + 1) n)

/-- Models `String.prototype.padStart(len, c)`: prepends copies of the pad
character until the target length is reached; a string already at least that
long is returned unchanged. -/
def padStart (s : String) (len : Nat) (c : Char) : String :=
  if len ≤ s.length then s else String.mk (List.replicate (len - s.length) c) ++ s

/-- The components a parsed JavaScript `Date` exposes through `getFullYear`,
`getMonth` (0-based) and `getDate` in local time. -/
structure JSDate where
  year : Nat
  month : Nat
  day : Nat
deriving DecidableEq, Repr

/-- Gregorian leap-year test, as JavaScript `Date` arithmetic uses. -/
def isLeapYear (y : Nat) : Bool :=
  y % 4 = 0 && (y % 100 ≠ 0 || y % 400 = 0)

/-- Number of days of a (1-based) month in the proleptic Gregorian
calendar. -/
def daysInMonth (y m : Nat) : Nat :=
  if m = 2 then (if isLeapYear y then 29 else 28)
  else if m = 4 ∨ m = 6 ∨ m = 9 ∨ m = 11 then 30
  else 31

/-- Models the host `new Date(s)` constructor on the strings this pipeline
produces: the local-time ISO form "YYYY-MM-DDT00:00:00" (the only shape
`formatDateForDisplay` builds, by appending "T00:00:00" to a dash-containing
input).  Per the ECMAScript date-time string format the month must be 01-12
and the day 01-31; a day past the end of the month rolls over into the next
month, exactly as `MakeDay` does (so "2025-02-30" parses as March 2).  Every
other string is modelled as unparseable (`none`, i.e. an Invalid Date whose
`getTime()` is NaN). -/
def jsNewDate (s : String) : Option JSDate :=
  match s.data with
  | [y1, y2, y3, y4, h1, m1, m2, h2, d1, d2, t0, z1, z2, c1, z3, z4, c2, z5, z6] =>
    if y1.isDigit && y2.isDigit && y3.isDigit && y4.isDigit &&
       h1 == '-' && m1.isDigit && m2.isDigit && h2 == '-' &&
       d1.isDigit && d2.isDigit && t0 == 'T' &&
       z1 == '0' && z2 == '0' && c1 == ':' && z3 == '0' && z4 == '0' &&
       c2 == ':' && z5 == '0' && z6 == '0' then
      let y := digitsToNat [y1, y2, y3, y4]
      let mo := digitsToNat [m1, m2]
      let dy := digitsToNat [d1, d2]
      if 1 ≤ mo && mo ≤ 12 && 1 ≤ dy && dy ≤ 31 then
        let dim := daysInMonth y mo
        if dy ≤ dim then some ⟨y, mo - 1, dy⟩
        else if mo = 12 then some ⟨y + 1, 0, dy - dim⟩
        else some ⟨y, mo, dy - dim⟩
      else none
    else none
  | _ => none

/-- The `months` abbreviation table of `formatDateForDisplay`. -/
def months : List String :=
  ["Jan", "Feb", "Mar", "Apr", "May", "Jun", "Jul", "Aug", "Sep", "Oct",
   "Nov", "Dec"]

/-- The date-construction step of `formatDateForDisplay`
(part_001 lines 87-94): a dash-containing input is parsed with "T00:00:00"
appended (forcing local-time interpretation), other formats are handed to
`new Date` directly (modelled as unparseable, see `jsNewDate`). -/
def parsedDate (s : String) : Option JSDate :=
  if s.data.contains '-' then jsNewDate (s ++ "T00:00:00") else jsNewDate s

/-- Embedding of the mobile `formatDateForDisplay` (part_001 lines 82-112).
A falsy input (undefined or empty) yields the empty string; a parse failure
(`isNaN(date.getTime())`) is caught by the guard of lines 97-100 and yields
the empty string; otherwise the result is day, month abbreviation and year
joined by dashes, with the day and year printed as plain numbers (no
padding).  The try/catch of the source cannot fire in the embedding since
every modelled step is total. -/
def formatDateForDisplay (dateString : Option String) : String :=
  match dateString with
  | none => ""
  | some s =>
    if s = "" then ""
    else
      match parsedDate s with
      | none => ""
      | some d =>
        natToStr d.day ++ "-" ++ jsToString (jsIndex months (d.month : Int)) ++ "-" ++
          natToStr d.year

/-- Claim C3: for every date input the embedded parser reports unparseable
(an Invalid Date, `getTime()` NaN), `formatDateForDisplay` returns the empty
string; it never throws (the embedding is a total function), so a parse
failure is signalled only by the empty result. -/
theorem claim_C3 (s : String) (h : parsedDate s = none) :
    formatDateForDisplay (some s) = "" := by
  unfold formatDateForDisplay
  by_cases hs : s = ""
  · simp [hs]
  · simp [hs, h]

/-- Witness for claim C3 at the concrete unparseable input "2025-13-05"
(month 13 is outside the ECMAScript date-time string range). -/
theorem claim_C3_witness : formatDateForDisplay (some "2025-13-05") = "" :=
  claim_C3 "2025-13-05" (by decide)

/-- Claim C8: for every input the embedded parser accepts, the displayed date
is day, month abbreviation and year joined by dashes with the day not
zero-padded; in particular "2025-02-09" displays as "9-Feb-2025" (day "9",
not "09"). -/
theorem claim_C8 :
    (∀ (s : String) (d : JSDate), parsedDate s = some d → s ≠ "" →
      formatDateForDisplay (some s) =
        natToStr d.day ++ "-" ++ jsToString (jsIndex months (d.month : Int)) ++ "-" ++
          natToStr d.year) ∧
    formatDateForDisplay (some "2025-02-09") = "9-Feb-2025" := by
  constructor
  · intro s d h hs
    unfold formatDateForDisplay
    simp [hs, h]
  · decide

/-- Witness for claim C8: the universally quantified part instantiated at
"2025-12-25", whose parse is checked by evaluation. -/
theorem claim_C8_witness :
    formatDateForDisplay (some "2025-12-25") =
      natToStr 25 ++ "-" ++ jsToString (jsIndex months (11 : Int)) ++ "-" ++ natToStr 2025 :=
  claim_C8.1 "2025-12-25" ⟨2025, 11, 25⟩ (by decide) (by decide)

/-- The fields of the form-data record that `generateReceiptText` reads
(part_001 lines 140-150).  Each field is a possibly-undefined string, as a
partially filled JavaScript form object delivers. -/
structure FormData where
  amount : Option String
  tenantName : Option String
  term : Option String
  durationFrom : Option String
  durationTo : Option String
  paymentMode : Option String
  referenceNo : Option String
  dateOfTransaction : Option String
deriving DecidableEq, Repr

/-- Fallback resolution of part_001 line 142: `formData.amount || '0'`. -/
def resolveAmount (fd : FormData) : String := jsOr fd.amount "0"

/-- Line 143: `convertNumberToWords(amount)` on the resolved amount, coerced
to text by the template. -/
def resolveAmountWords (fd : FormData) : String :=
  jsToString (convertNumberToWordsStr (resolveAmount fd))

/-- Line 144: `formData.tenantName || 'Unknown'`. -/
def resolveTenantName (fd : FormData) : String := jsOr fd.tenantName "Unknown"

/-- Line 145: `formData.term || 'Monthly'`. -/
def resolveTerm (fd : FormData) : String := jsOr fd.term "Monthly"

/-- Line 146: `formatDateForDisplay(formData.durationFrom) || 'N/A'`. -/
def resolveDurationFrom (fd : FormData) : String :=
  strOr (formatDateForDisplay fd.durationFrom) "N/A"

/-- Line 147: `formatDateForDisplay(formData.durationTo) || 'N/A'`. -/
def resolveDurationTo (fd : FormData) : String :=
  strOr (formatDateForDisplay fd.durationTo) "N/A"

/-- Line 148: `formData.paymentMode || 'Cash'`. -/
def resolvePaymentMode (fd : FormData) : String := jsOr fd.paymentMode "Cash"

/-- Line 149: `formData.referenceNo || ''`. -/
def resolveReferenceNo (fd : FormData) : String := jsOr fd.referenceNo ""

/-- Line 150: the transaction date, falling back to the current date
(`new Date().toISOString().split('T')[0]`, threaded here as the explicit
parameter `today`) when the record's own date does not format. -/
def resolveTransactionDate (today : String) (fd : FormData) : String :=
  strOr (formatDateForDisplay fd.dateOfTransaction) (formatDateForDisplay (some today))

/-- Embedding of the mobile `generateReceiptText` (part_001 lines 140-158):
fallbacks are resolved first, then the template branches on the resolved
payment mode; the Cash branch carries no reference or transaction-date
clause, the non-Cash branch appends both.  `today` models the ambient
current date used by the transaction-date fallback. -/
def generateReceiptText (today : String) (fd : FormData) : String :=
  if resolvePaymentMode fd = "Cash" then
    "This is to acknowledge the receipt of <strong>₹" ++ resolveAmount fd ++
      "</strong> (<strong>" ++ resolveAmountWords fd ++ " Only</strong>) from <strong>" ++
      resolveTenantName fd ++ "</strong> towards " ++ resolveTerm fd ++
      " rent for the period <strong>" ++ resolveDurationFrom fd ++
      "</strong> to <strong>" ++ resolveDurationTo fd ++ "</strong>, paid via Cash."
  else
    "This is to acknowledge the receipt of <strong>₹" ++ resolveAmount fd ++
      "</strong> (<strong>" ++ resolveAmountWords fd ++ " Only</strong>) from <strong>" ++
      resolveTenantName fd ++ "</strong> towards " ++ resolveTerm fd ++
      " rent for the period <strong>" ++ resolveDurationFrom fd ++
      "</strong> to <strong>" ++ resolveDurationTo fd ++ "</strong>, paid via " ++
      resolvePaymentMode fd ++ " (" ++ resolveReferenceNo fd ++ ") on " ++
      resolveTransactionDate today fd ++ "."

/-- A form field is absent when it is undefined or the empty string — both
are falsy in the fallback expressions of part_001 lines 142-150. -/
def isAbsent (x : Option String) : Prop := x = none ∨ x = some ""

instance (x : Option String) : Decidable (isAbsent x) := by
  unfold isAbsent; infer_instance

/-- Claim C2: on any record whose fields are absent, `generateReceiptText`
resolves the documented fallbacks before templating — amount "0", tenant
"Unknown", term "Monthly", payment mode "Cash", and the unresolved duration
dates render as "N/A" — and therefore returns the fully readable fallback
sentence (never failing, never interpolating undefined field text). -/
theorem claim_C2 (today : String) (fd : FormData)
    (ha : isAbsent fd.amount) (htn : isAbsent fd.tenantName)
    (hte : isAbsent fd.term) (hdf : isAbsent fd.durationFrom)
    (hdt : isAbsent fd.durationTo) (hpm : isAbsent fd.paymentMode) :
    resolveAmount fd = "0" ∧
    resolveTenantName fd = "Unknown" ∧
    resolveTerm fd = "Monthly" ∧
    resolvePaymentMode fd = "Cash" ∧
    resolveDurationFrom fd = "N/A" ∧
    resolveDurationTo fd = "N/A" ∧
    generateReceiptText today fd =
      "This is to acknowledge the receipt of <strong>₹0</strong> (<strong>Zero Only</strong>) from <strong>Unknown</strong> towards Monthly rent for the period <strong>N/A</strong> to <strong>N/A</strong>, paid via Cash." := by
  have e1 : resolveAmount fd = "0" := by
    rcases ha with h | h <;> simp [resolveAmount, jsOr, h]
  have e2 : resolveTenantName fd = "Unknown" := by
    rcases htn with h | h <;> simp [resolveTenantName, jsOr, h]
  have e3 : resolveTerm fd = "Monthly" := by
    rcases hte with h | h <;> simp [resolveTerm, jsOr, h]
  have e4 : resolvePaymentMode fd = "Cash" := by
    rcases hpm with h | h <;> simp [resolvePaymentMode, jsOr, h]
  have e5 : resolveDurationFrom fd = "N/A" := by
    rcases hdf with h | h <;> simp [resolveDurationFrom, formatDateForDisplay, strOr, h]
  have e6 : resolveDurationTo fd = "N/A" := by
    rcases hdt with h | h <;> simp [resolveDurationTo, formatDateForDisplay, strOr, h]
  have e7 : resolveAmountWords fd = "Zero" := by
    rw [resolveAmountWords, e1]; decide
  refine ⟨e1, e2, e3, e4, e5, e6, ?_⟩
  rw [generateReceiptText, if_pos e4, e1, e2, e3, e5, e6, e7]
  rfl

/-- Witness for claim C2: the all-absent record, with an arbitrary ambient
date. -/
theorem claim_C2_witness :
    resolveAmount ⟨none, none, none, none, none, none, none, none⟩ = "0" ∧
    resolveTenantName ⟨none, none, none, none, none, none, none, none⟩ = "Unknown" ∧
    resolveTerm ⟨none, none, none, none, none, none, none, none⟩ = "Monthly" ∧
    resolvePaymentMode ⟨none, none, none, none, none, none, none, none⟩ = "Cash" ∧
    resolveDurationFrom ⟨none, none, none, none, none, none, none, none⟩ = "N/A" ∧
    resolveDurationTo ⟨none, none, none, none, none, none, none, none⟩ = "N/A" ∧
    generateReceiptText "2025-01-01" ⟨none, none, none, none, none, none, none, none⟩ =
      "This is to acknowledge the receipt of <strong>₹0</strong> (<strong>Zero Only</strong>) from <strong>Unknown</strong> towards Monthly rent for the period <strong>N/A</strong> to <strong>N/A</strong>, paid via Cash." :=
  claim_C2 "2025-01-01" ⟨none, none, none, none, none, none, none, none⟩
    (Or.inl rfl) (Or.inl rfl) (Or.inl rfl) (Or.inl rfl) (Or.inl rfl) (Or.inl rfl)

/-- The components of the current local time that `generateReceiptNumber`
reads from `new Date()`: `getFullYear`, `getMonth` (0-based), `getHours`,
`getMinutes`. -/
structure JSTime where
  year : Nat
  month : Nat
  hours : Nat
  minutes : Nat
deriving DecidableEq, Repr

/-- Models `String.prototype.slice(-2)`: the last two characters (the whole
string when it is shorter). -/
def sliceLast2 (s : String) : String :=
  String.mk (s.data.drop (s.data.length - 2))

/-- Embedding of the timestamp-policy `generateReceiptNumber`
(pdf.js lines 210-217, identically part_001 lines 362-369).  The current
time is threaded as the explicit parameter `now`; the `sequenceNumber`
argument appears in the signature but is never read. -/
def generateReceiptNumber (now : JSTime) (sequenceNumber : Int) : String :=
  let year := sliceLast2 (natToStr now.year)
  let month := padStart (natToStr (now.month + 1)) 2 '0'
  let hours := padStart (natToStr now.hours) 2 '0'
  let minutes := padStart (natToStr now.minutes) 2 '0'
  "RCT-" ++ year ++ month ++ "-" ++ hours ++ minutes

/-- Claim C6: the timestamp policy emits
"RCT-{2-digit-year}{2-digit-month}-{2-digit-hour}{2-digit-minute}" with each
component zero-padded from the current local time, and the output is
independent of the sequence argument — any two argument values at the same
instant produce equal strings, so two generations within the same minute
collide.  The concrete instants check the format and the padding: September
2025 at 16:50 gives "RCT-2509-1650" (the JSDoc example of the source), and
January 2025 at 03:07 gives "RCT-2501-0307". -/
theorem claim_C6 :
    (∀ (now : JSTime) (s1 s2 : Int),
      generateReceiptNumber now s1 = generateReceiptNumber now s2) ∧
    generateReceiptNumber ⟨2025, 8, 16, 50⟩ 0 = "RCT-2509-1650" ∧
    generateReceiptNumber ⟨2025, 0, 3, 7⟩ 99 = "RCT-2501-0307" :=
  ⟨fun _ _ _ => rfl, by decide, by decide⟩

/-- The page and raster dimensions read by the fit-to-page computation of
`generateReceiptPDF` (pdf.js lines 166-176).  JavaScript numbers are
modelled as rationals (the computation is exact division, multiplication and
min). -/
structure RasterFit where
  pdfWidth : ℚ
  pdfHeight : ℚ
  imgWidth : ℚ
  imgHeight : ℚ
deriving DecidableEq, Repr

/-- Line 171: `ratio = Math.min(pdfWidth / imgWidth, pdfHeight / imgHeight)`. -/
def fitRatio (d : RasterFit) : ℚ :=
  min (d.pdfWidth / d.imgWidth) (d.pdfHeight / d.imgHeight)

/-- Line 172: `imgX = (pdfWidth - imgWidth * ratio) / 2`. -/
def fitImgX (d : RasterFit) : ℚ :=
  (d.pdfWidth - d.imgWidth * fitRatio d) / 2

/-- Line 173: `imgY = 0`. -/
def fitImgY (d : RasterFit) : ℚ := 0

/-- Claim C7: for positive raster and page dimensions the scaled image fits
the page in both dimensions, the horizontal offset centres it (and is
non-negative), and the vertical offset anchors to the top (zero, not
centred). -/
theorem claim_C7 (d : RasterFit) (hiw : 0 < d.imgWidth) (hih : 0 < d.imgHeight)
    (hpw : 0 < d.pdfWidth) (hph : 0 < d.pdfHeight) :
    d.imgWidth * fitRatio d ≤ d.pdfWidth ∧
    d.imgHeight * fitRatio d ≤ d.pdfHeight ∧
    fitImgX d = (d.pdfWidth - d.imgWidth * fitRatio d) / 2 ∧
    0 ≤ fitImgX d ∧
    fitImgY d = 0 := by
  have hw : d.imgWidth * fitRatio d ≤ d.pdfWidth := by
    calc d.imgWidth * fitRatio d
        ≤ d.imgWidth * (d.pdfWidth / d.imgWidth) := by
          have := min_le_left (d.pdfWidth / d.imgWidth) (d.pdfHeight / d.imgHeight)
          exact mul_le_mul_of_nonneg_left this hiw.le
      _ = d.pdfWidth := by field_simp
  have hh : d.imgHeight * fitRatio d ≤ d.pdfHeight := by
    calc d.imgHeight * fitRatio d
        ≤ d.imgHeight * (d.pdfHeight / d.imgHeight) := by
          have := min_le_right (d.pdfWidth / d.imgWidth) (d.pdfHeight / d.imgHeight)
          exact mul_le_mul_of_nonneg_left this hih.le
      _ = d.pdfHeight := by field_simp
  refine ⟨hw, hh, rfl, ?_, rfl⟩
  have : 0 ≤ d.pdfWidth - d.imgWidth * fitRatio d := by linarith
  exact div_nonneg this (by norm_num)

/-- Witness for claim C7 at the landscape A4 page (297 by 210 mm) and a
1588 by 2246 pixel raster. -/
theorem claim_C7_witness :
    (RasterFit.imgWidth ⟨297, 210, 1588, 2246⟩) * fitRatio ⟨297, 210, 1588, 2246⟩ ≤
      RasterFit.pdfWidth ⟨297, 210, 1588, 2246⟩ ∧
    (RasterFit.imgHeight ⟨297, 210, 1588, 2246⟩) * fitRatio ⟨297, 210, 1588, 2246⟩ ≤
      RasterFit.pdfHeight ⟨297, 210, 1588, 2246⟩ ∧
    fitImgX ⟨297, 210, 1588, 2246⟩ =
      (RasterFit.pdfWidth ⟨297, 210, 1588, 2246⟩ -
        RasterFit.imgWidth ⟨297, 210, 1588, 2246⟩ * fitRatio ⟨297, 210, 1588, 2246⟩) / 2 ∧
    0 ≤ fitImgX ⟨297, 210, 1588, 2246⟩ ∧
    fitImgY ⟨297, 210, 1588, 2246⟩ = 0 :=
  claim_C7 ⟨297, 210, 1588, 2246⟩ (by norm_num) (by norm_num) (by norm_num) (by norm_num)

/-- Boolean test that `pat` is an initial segment of `l`. -/
def leadsB : List Char → List Char → Bool
  | [], _ => true
  | _ :: _, [] => false
  | a :: as, b :: bs => a == b && leadsB as bs

/-- Boolean test that `pat` occurs contiguously somewhere inside `l`. -/
def occursB : List Char → List Char → Bool
  | pat, [] => leadsB pat []
  | pat, b :: rest => leadsB pat (b :: rest) || occursB pat rest

/-- Boolean test that `pat` is a final segment of `l`. -/
def endsWithB (pat l : List Char) : Bool := leadsB pat.reverse l.reverse

theorem leadsB_iff (pat l : List Char) : leadsB pat l = true ↔ ∃ t, l = pat ++ t := by
  induction pat generalizing l with
  | nil => simp [leadsB]
  | cons a as ih =>
    cases l with
    | nil => simp [leadsB]
    | cons b bs =>
      simp only [leadsB, Bool.and_eq_true, beq_iff_eq, ih, List.cons_append]
      constructor
      · rintro ⟨rfl, t, rfl⟩; exact ⟨t, rfl⟩
      · rintro ⟨t, heq⟩
        injection heq with hb hbs
        exact ⟨hb.symm, t, hbs⟩

theorem occursB_iff (pat l : List Char) : occursB pat l = true ↔ ∃ s t, l = s ++ pat ++ t := by
  induction l with
  | nil =>
    show leadsB pat [] = true ↔ _
    rw [leadsB_iff]
    constructor
    · rintro ⟨t, ht⟩
      exact ⟨[], t, by simpa using ht⟩
    · rintro ⟨s, t, h⟩
      have hp : pat = [] := by
        rcases List.append_eq_nil.mp (List.append_eq_nil.mp h.symm).1 with ⟨-, h2⟩
        exact h2
      subst hp
      exact ⟨[], by simp⟩
  | cons b bs ih =>
    show (leadsB pat (b :: bs) || occursB pat bs) = true ↔ _
    rw [Bool.or_eq_true, leadsB_iff, ih]
    constructor
    · rintro (⟨t, ht⟩ | ⟨s, t, ht⟩)
      · exact ⟨[], t, by simpa using ht⟩
      · exact ⟨b :: s, t, by simp [ht]⟩
    · rintro ⟨s, t, h⟩
      cases s with
      | nil => exact Or.inl ⟨t, by simpa using h⟩
      | cons c s2 =>
        right
        injection h with hc hrest
        exact ⟨s2, t, hrest⟩

theorem endsWithB_iff (pat l : List Char) : endsWithB pat l = true ↔ ∃ s, l = s ++ pat := by
  rw [endsWithB, leadsB_iff]
  constructor
  · rintro ⟨t, ht⟩
    refine ⟨t.reverse, ?_⟩
    have h2 := congrArg List.reverse ht
    simpa using h2
  · rintro ⟨s, rfl⟩
    exact ⟨s.reverse, by simp⟩

theorem leadsB_append (pat x y : List Char) (h : pat.length ≤ x.length) :
    leadsB pat (x ++ y) = leadsB pat x := by
  induction pat generalizing x with
  | nil => simp [leadsB]
  | cons a as ih =>
    cases x with
    | nil => simp at h
    | cons b bs =>
      have e1 : leadsB (a :: as) ((b :: bs) ++ y) = (a == b && leadsB as (bs ++ y)) := rfl
      have e2 : leadsB (a :: as) (b :: bs) = (a == b && leadsB as bs) := rfl
      rw [e1, e2, ih bs (by simpa using h)]

/-- The character pattern of a transaction-date clause marker: the letters of
"on" followed by a space. -/
def onSp : List Char := ['o', 'n', ' ']

/-- An occurrence of the marker in a concatenation lies inside the left part,
inside the right part, or spans the seam in one of the two possible ways. -/
theorem occursB_onSp_append {l1 l2 : List Char} (h : occursB onSp (l1 ++ l2) = true) :
    occursB onSp l1 = true ∨ occursB onSp l2 = true ∨
    (endsWithB ['o'] l1 = true ∧ leadsB ['n', ' '] l2 = true) ∨
    (endsWithB ['o', 'n'] l1 = true ∧ leadsB [' '] l2 = true) := by
  rw [occursB_iff] at h
  obtain ⟨s, t, heq⟩ := h
  rw [List.append_assoc] at heq
  rcases List.append_eq_append_iff.mp heq with ⟨k, hk1, hk2⟩ | ⟨k, hk1, hk2⟩
  · right; left
    rw [occursB_iff]
    refine ⟨k, t, ?_⟩
    rw [hk2, List.append_assoc]
  · have hk2b : 'o' :: 'n' :: ' ' :: t = k ++ l2 := hk2
    cases k with
    | nil =>
      right; left
      rw [occursB_iff]
      refine ⟨[], t, ?_⟩
      simp only [List.nil_append]
      simpa [onSp] using hk2b.symm
    | cons c1 k1 =>
      rw [List.cons_append] at hk2b
      injection hk2b with hc1 hrest1
      cases k1 with
      | nil =>
        right; right; left
        refine ⟨?_, ?_⟩
        · rw [endsWithB_iff]
          refine ⟨s, ?_⟩
          rw [hk1, ← hc1]
        · rw [leadsB_iff]
          refine ⟨t, ?_⟩
          simpa using hrest1.symm
      | cons c2 k2 =>
        rw [List.cons_append] at hrest1
        injection hrest1 with hc2 hrest2
        cases k2 with
        | nil =>
          right; right; right
          refine ⟨?_, ?_⟩
          · rw [endsWithB_iff]
            refine ⟨s, ?_⟩
            rw [hk1, ← hc1, ← hc2]
          · rw [leadsB_iff]
            refine ⟨t, ?_⟩
            simpa using hrest2.symm
        | cons c3 k3 =>
          rw [List.cons_append] at hrest2
          injection hrest2 with hc3 hrest3
          left
          rw [occursB_iff]
          refine ⟨s, k3, ?_⟩
          rw [hk1, ← hc1, ← hc2, ← hc3]
          simp [onSp]

/-- The marker does not occur in a concatenation when it occurs in neither
part and cannot span the seam. -/
theorem noOn_append {l1 l2 : List Char}
    (h1 : occursB onSp l1 = false) (h2 : occursB onSp l2 = false)
    (hsp1 : endsWithB ['o'] l1 = true → leadsB ['n', ' '] l2 = false)
    (hsp2 : endsWithB ['o', 'n'] l1 = true → leadsB [' '] l2 = false) :
    occursB onSp (l1 ++ l2) = false := by
  rw [← Bool.not_eq_true]
  intro h
  rcases occursB_onSp_append h with h | h | ⟨ha, hb⟩ | ⟨ha, hb⟩ <;> simp_all

/-- Containment witness: exhibiting the surrounding text proves an
occurrence. -/
theorem occursB_of_parts (pat s t l : List Char) (h : l = s ++ pat ++ t) :
    occursB pat l = true :=
  (occursB_iff pat l).mpr ⟨s, t, h⟩

/-- No resolved field of the record smuggles a transaction-date-clause marker
into the text: none contains the marker "on " and the two fields that the
template follows with a space do not end in the letters "on".  This is the
well-formedness assumption under which the Cash branch is provably free of
any transaction-date clause; every record built from the form's enumerated
terms and payment modes, numeric amounts and formatted dates satisfies
it. -/
def CleanReceiptFields (fd : FormData) : Prop :=
  occursB onSp (resolveAmount fd).data = false ∧
  occursB onSp (resolveAmountWords fd).data = false ∧
  endsWithB ['o', 'n'] (resolveAmountWords fd).data = false ∧
  occursB onSp (resolveTenantName fd).data = false ∧
  occursB onSp (resolveTerm fd).data = false ∧
  endsWithB ['o', 'n'] (resolveTerm fd).data = false ∧
  occursB onSp (resolveDurationFrom fd).data = false ∧
  occursB onSp (resolveDurationTo fd).data = false

instance (fd : FormData) : Decidable (CleanReceiptFields fd) := by
  unfold CleanReceiptFields; infer_instance

/-- The Cash branch of `generateReceiptText` never contains the marker
"on " (hence no transaction-date clause), for any clean record. -/
theorem receiptText_cash_noOn (today : String) (fd : FormData)
    (hmode : resolvePaymentMode fd = "Cash") (hc : CleanReceiptFields fd) :
    occursB onSp (generateReceiptText today fd).data = false := by
  obtain ⟨h1, h2, h3, h4, h5, h6, h7, h8⟩ := hc
  have hout : (generateReceiptText today fd).data =
      String.data "This is to acknowledge the receipt of <strong>₹" ++
        ((resolveAmount fd).data ++ (String.data "</strong> (<strong>" ++
        ((resolveAmountWords fd).data ++ (String.data " Only</strong>) from <strong>" ++
        ((resolveTenantName fd).data ++ (String.data "</strong> towards " ++
        ((resolveTerm fd).data ++ (String.data " rent for the period <strong>" ++
        ((resolveDurationFrom fd).data ++ (String.data "</strong> to <strong>" ++
        ((resolveDurationTo fd).data ++
          String.data "</strong>, paid via Cash."))))))))))) := by
    rw [generateReceiptText, if_pos hmode]
    simp only [String.data_append, List.append_assoc]
  rw [hout]
  have n12 : occursB onSp ((resolveDurationTo fd).data ++
      String.data "</strong>, paid via Cash.") = false :=
    noOn_append h8 (by decide) (fun _ => by decide) (fun _ => by decide)
  have n11 : occursB onSp (String.data "</strong> to <strong>" ++
      ((resolveDurationTo fd).data ++ String.data "</strong>, paid via Cash.")) = false :=
    noOn_append (by decide) n12 (fun h => absurd h (by decide)) (fun h => absurd h (by decide))
  have n10 : occursB onSp ((resolveDurationFrom fd).data ++
      (String.data "</strong> to <strong>" ++
      ((resolveDurationTo fd).data ++ String.data "</strong>, paid via Cash."))) = false :=
    noOn_append h7 n11
      (fun _ => by rw [leadsB_append _ _ _ (by decide)]; decide)
      (fun _ => by rw [leadsB_append _ _ _ (by decide)]; decide)
  have n9 : occursB onSp (String.data " rent for the period <strong>" ++
      ((resolveDurationFrom fd).data ++
      (String.data "</strong> to <strong>" ++
      ((resolveDurationTo fd).data ++ String.data "</strong>, paid via Cash.")))) = false :=
    noOn_append (by decide) n10 (fun h => absurd h (by decide)) (fun h => absurd h (by decide))
  have n8 : occursB onSp ((resolveTerm fd).data ++
      (String.data " rent for the period <strong>" ++
      ((resolveDurationFrom fd).data ++
      (String.data "</strong> to <strong>" ++
      ((resolveDurationTo fd).data ++ String.data "</strong>, paid via Cash."))))) = false :=
    noOn_append h5 n9
      (fun _ => by rw [leadsB_append _ _ _ (by decide)]; decide)
      (fun h => absurd h (by rw [h6]; simp))
  have n7 : occursB onSp (String.data "</strong> towards " ++
      ((resolveTerm fd).data ++
      (String.data " rent for the period <strong>" ++
      ((resolveDurationFrom fd).data ++
      (String.data "</strong> to <strong>" ++
      ((resolveDurationTo fd).data ++ String.data "</strong>, paid via Cash.")))))) = false :=
    noOn_append (by decide) n8 (fun h => absurd h (by decide)) (fun h => absurd h (by decide))
  have n6 : occursB onSp ((resolveTenantName fd).data ++
      (String.data "</strong> towards " ++
      ((resolveTerm fd).data ++
      (String.data " rent for the period <strong>" ++
      ((resolveDurationFrom fd).data ++
      (String.data "</strong> to <strong>" ++
      ((resolveDurationTo fd).data ++ String.data "</strong>, paid via Cash."))))))) = false :=
    noOn_append h4 n7
      (fun _ => by rw [leadsB_append _ _ _ (by decide)]; decide)
      (fun _ => by rw [leadsB_append _ _ _ (by decide)]; decide)
  have n5 : occursB onSp (String.data " Only</strong>) from <strong>" ++
      ((resolveTenantName fd).data ++
      (String.data "</strong> towards " ++
      ((resolveTerm fd).data ++
      (String.data " rent for the period <strong>" ++
      ((resolveDurationFrom fd).data ++
      (String.data "</strong> to <strong>" ++
      ((resolveDurationTo fd).data ++ String.data "</strong>, paid via Cash.")))))))) = false :=
    noOn_append (by decide) n6 (fun h => absurd h (by decide)) (fun h => absurd h (by decide))
  have n4 : occursB onSp ((resolveAmountWords fd).data ++
      (String.data " Only</strong>) from <strong>" ++
      ((resolveTenantName fd).data ++
      (String.data "</strong> towards " ++
      ((resolveTerm fd).data ++
      (String.data " rent for the period <strong>" ++
      ((resolveDurationFrom fd).data ++
      (String.data "</strong> to <strong>" ++
      ((resolveDurationTo fd).data ++ String.data "</strong>, paid via Cash."))))))))) = false :=
    noOn_append h2 n5
      (fun _ => by rw [leadsB_append _ _ _ (by decide)]; decide)
      (fun h => absurd h (by rw [h3]; simp))
  have n3 : occursB onSp (String.data "</strong> (<strong>" ++
      ((resolveAmountWords fd).data ++
      (String.data " Only</strong>) from <strong>" ++
      ((resolveTenantName fd).data ++
      (String.data "</strong> towards " ++
      ((resolveTerm fd).data ++
      (String.data " rent for the period <strong>" ++
      ((resolveDurationFrom fd).data ++
      (String.data "</strong> to <strong>" ++
      ((resolveDurationTo fd).data ++ String.data "</strong>, paid via Cash.")))))))))) = false :=
    noOn_append (by decide) n4 (fun h => absurd h (by decide)) (fun h => absurd h (by decide))
  have n2 : occursB onSp ((resolveAmount fd).data ++
      (String.data "</strong> (<strong>" ++
      ((resolveAmountWords fd).data ++
      (String.data " Only</strong>) from <strong>" ++
      ((resolveTenantName fd).data ++
      (String.data "</strong> towards " ++
      ((resolveTerm fd).data ++
      (String.data " rent for the period <strong>" ++
      ((resolveDurationFrom fd).data ++
      (String.data "</strong> to <strong>" ++
      ((resolveDurationTo fd).data ++ String.data "</strong>, paid via Cash."))))))))))) = false :=
    noOn_append h1 n3
      (fun _ => by rw [leadsB_append _ _ _ (by decide)]; decide)
      (fun _ => by rw [leadsB_append _ _ _ (by decide)]; decide)
  exact noOn_append (by decide) n2
    (fun h => absurd h (by decide)) (fun h => absurd h (by decide))

/-- The non-Cash branch of `generateReceiptText` contains the reference
number and the full transaction-date clause. -/
theorem receiptText_noncash_clause (today : String) (fd : FormData)
    (hmode : resolvePaymentMode fd ≠ "Cash") :
    occursB (resolveReferenceNo fd).data (generateReceiptText today fd).data = true ∧
    occursB (String.data (", paid via " ++ resolvePaymentMode fd ++ " (" ++
        resolveReferenceNo fd ++ ") on " ++ resolveTransactionDate today fd ++ "."))
      (generateReceiptText today fd).data = true := by
  have hout : (generateReceiptText today fd).data =
      String.data "This is to acknowledge the receipt of <strong>₹" ++
        ((resolveAmount fd).data ++ (String.data "</strong> (<strong>" ++
        ((resolveAmountWords fd).data ++ (String.data " Only</strong>) from <strong>" ++
        ((resolveTenantName fd).data ++ (String.data "</strong> towards " ++
        ((resolveTerm fd).data ++ (String.data " rent for the period <strong>" ++
        ((resolveDurationFrom fd).data ++ (String.data "</strong> to <strong>" ++
        ((resolveDurationTo fd).data ++ (String.data "</strong>, paid via " ++
        ((resolvePaymentMode fd).data ++ (String.data " (" ++
        ((resolveReferenceNo fd).data ++ (String.data ") on " ++
        ((resolveTransactionDate today fd).data ++
          String.data "."))))))))))))))))) := by
    rw [generateReceiptText, if_neg hmode]
    simp only [String.data_append, List.append_assoc]
  constructor
  · apply occursB_of_parts _
      (String.data "This is to acknowledge the receipt of <strong>₹" ++
        (resolveAmount fd).data ++ String.data "</strong> (<strong>" ++
        (resolveAmountWords fd).data ++ String.data " Only</strong>) from <strong>" ++
        (resolveTenantName fd).data ++ String.data "</strong> towards " ++
        (resolveTerm fd).data ++ String.data " rent for the period <strong>" ++
        (resolveDurationFrom fd).data ++ String.data "</strong> to <strong>" ++
        (resolveDurationTo fd).data ++ String.data "</strong>, paid via " ++
        (resolvePaymentMode fd).data ++ String.data " (")
      (String.data ") on " ++ (resolveTransactionDate today fd).data ++ String.data ".")
    rw [hout]
    simp only [String.data_append, List.append_assoc]
  · apply occursB_of_parts _
      (String.data "This is to acknowledge the receipt of <strong>₹" ++
        (resolveAmount fd).data ++ String.data "</strong> (<strong>" ++
        (resolveAmountWords fd).data ++ String.data " Only</strong>) from <strong>" ++
        (resolveTenantName fd).data ++ String.data "</strong> towards " ++
        (resolveTerm fd).data ++ String.data " rent for the period <strong>" ++
        (resolveDurationFrom fd).data ++ String.data "</strong> to <strong>" ++
        (resolveDurationTo fd).data ++ String.data "</strong>")
      []
    rw [hout]
    have hsplit : String.data "</strong>, paid via " =
        String.data "</strong>" ++ String.data ", paid via " := by decide
    simp only [hsplit, String.data_append, List.append_assoc, List.append_nil]
    rfl

/-- Claim C5: branching on the resolved payment mode, the Cash branch of the
composed receipt text contains no transaction-date clause — for every clean
record (no field smuggling the marker text, see `CleanReceiptFields`) the
marker "on " does not occur anywhere in the output, so in particular no
"on " followed by a date occurs — while for every record whose resolved
payment mode is not "Cash" the output contains the reference number and the
full ", paid via mode (referenceNo) on transactionDate." clause. -/
theorem claim_C5 (today : String) (fd : FormData) :
    (resolvePaymentMode fd = "Cash" → CleanReceiptFields fd →
      occursB onSp (generateReceiptText today fd).data = false) ∧
    (resolvePaymentMode fd ≠ "Cash" →
      occursB (resolveReferenceNo fd).data (generateReceiptText today fd).data = true ∧
      occursB (String.data (", paid via " ++ resolvePaymentMode fd ++ " (" ++
          resolveReferenceNo fd ++ ") on " ++ resolveTransactionDate today fd ++ "."))
        (generateReceiptText today fd).data = true) :=
  ⟨fun hmode hc => receiptText_cash_noOn today fd hmode hc,
   fun hmode => receiptText_noncash_clause today fd hmode⟩

/-- Witness for claim C5: a concrete clean Cash record has no "on " marker in
its composed text, and a concrete Cheque record contains the reference
number and the full transaction-date clause. -/
theorem claim_C5_witness :
    occursB onSp (generateReceiptText "2025-09-01"
      ⟨some "50000", some "John Doe", some "Monthly", some "2025-08-01",
       some "2025-08-31", some "Cash", none, none⟩).data = false ∧
    occursB (resolveReferenceNo
        ⟨some "50000", some "John Doe", some "Monthly", some "2025-08-01",
         some "2025-08-31", some "Cheque", some "12345", some "2025-02-09"⟩).data
      (generateReceiptText "2025-09-01"
        ⟨some "50000", some "John Doe", some "Monthly", some "2025-08-01",
         some "2025-08-31", some "Cheque", some "12345", some "2025-02-09"⟩).data = true ∧
    occursB (String.data (", paid via " ++ resolvePaymentMode
          ⟨some "50000", some "John Doe", some "Monthly", some "2025-08-01",
           some "2025-08-31", some "Cheque", some "12345", some "2025-02-09"⟩ ++ " (" ++
        resolveReferenceNo
          ⟨some "50000", some "John Doe", some "Monthly", some "2025-08-01",
           some "2025-08-31", some "Cheque", some "12345", some "2025-02-09"⟩ ++ ") on " ++
        resolveTransactionDate "2025-09-01"
          ⟨some "50000", some "John Doe", some "Monthly", some "2025-08-01",
           some "2025-08-31", some "Cheque", some "12345", some "2025-02-09"⟩ ++ "."))
      (generateReceiptText "2025-09-01"
        ⟨some "50000", some "John Doe", some "Monthly", some "2025-08-01",
         some "2025-08-31", some "Cheque", some "12345", some "2025-02-09"⟩).data = true := by
  refine ⟨?_, ?_⟩
  · exact (claim_C5 "2025-09-01"
      ⟨some "50000", some "John Doe", some "Monthly", some "2025-08-01",
       some "2025-08-31", some "Cash", none, none⟩).1 (by decide) (by decide)
  · exact (claim_C5 "2025-09-01"
      ⟨some "50000", some "John Doe", some "Monthly", some "2025-08-01",
       some "2025-08-31", some "Cheque", some "12345", some "2025-02-09"⟩).2 (by decide)

/-- The decimal digit character of the last digit of a natural number, as
JavaScript base-10 number-to-string conversion emits. -/
def digChar (n : Nat) : Char := Char.ofNat (48 + n % 10)

theorem natDigitsAux_one (f n : Nat) (hn : n < 10) (hf : 1 ≤ f) :
    natDigitsAux f n = [digChar n] := by
  cases f with
  | zero => omega
  | succ f2 =>
    simp only [natDigitsAux, if_pos hn, digChar, Nat.mod_eq_of_lt hn]

theorem natDigitsAux_two (f n : Nat) (h1 : 10 ≤ n) (h2 : n < 100) (hf : 2 ≤ f) :
    natDigitsAux f n = [digChar (n / 10), digChar n] := by
  cases f with
  | zero => omega
  | succ f2 =>
    have hn : ¬ n < 10 := by omega
    simp only [natDigitsAux, if_neg hn]
    rw [natDigitsAux_one f2 (n / 10) (by omega) (by omega)]
    rfl

theorem natDigitsAux_three (f n : Nat) (h1 : 100 ≤ n) (h2 : n < 1000) (hf : 3 ≤ f) :
    natDigitsAux f n = [digChar (n / 10 / 10), digChar (n / 10), digChar n] := by
  cases f with
  | zero => omega
  | succ f2 =>
    have hn : ¬ n < 10 := by omega
    simp only [natDigitsAux, if_neg hn]
    rw [natDigitsAux_two f2 (n / 10) (by omega) (by omega) (by omega)]
    rfl

theorem natDigitsAux_four (f n : Nat) (h1 : 1000 ≤ n) (h2 : n < 10000) (hf : 4 ≤ f) :
    natDigitsAux f n = [digChar (n / 10 / 10 / 10), digChar (n / 10 / 10),
      digChar (n / 10), digChar n] := by
  cases f with
  | zero => omega
  | succ f2 =>
    have hn : ¬ n < 10 := by omega
    simp only [natDigitsAux, if_neg hn]
    rw [natDigitsAux_three f2 (n / 10) (by omega) (by omega) (by omega)]
    rfl

theorem padStart_data (l : List Char) (k : Nat) (c : Char) :
    (padStart (String.mk l) k c).data = List.replicate (k - l.length) c ++ l := by
  unfold padStart
  by_cases h : k ≤ (String.mk l).length
  · rw [if_pos h]
    have hl : (String.mk l).length = l.length := rfl
    have hz : k - l.length = 0 := by omega
    rw [hz]
    rfl
  · rw [if_neg h]
    rfl

/-- The four characters of a sequence number padded with `padStart(4, '0')`,
for sequence numbers of at most four digits. -/
theorem pad4_data (n : Nat) (h : n ≤ 9999) :
    (padStart (natToStr n) 4 '0').data =
      [digChar (n / 10 / 10 / 10), digChar (n / 10 / 10), digChar (n / 10), digChar n] := by
  rcases Nat.lt_or_ge n 10 with h1 | h1
  · have hd := natDigitsAux_one (n + 1) n h1 (by omega)
    rw [natToStr, padStart_data, hd]
    have e1 : n / 10 = 0 := by omega
    rw [e1]
    rfl
  · rcases Nat.lt_or_ge n 100 with h2 | h2
    · have hd := natDigitsAux_two (n + 1) n h1 h2 (by omega)
      rw [natToStr, padStart_data, hd]
      have e1 : n / 10 / 10 = 0 := by omega
      rw [e1]
      rfl
    · rcases Nat.lt_or_ge n 1000 with h3 | h3
      · have hd := natDigitsAux_three (n + 1) n h2 h3 (by omega)
        rw [natToStr, padStart_data, hd]
        have e1 : n / 10 / 10 / 10 = 0 := by omega
        rw [e1]
        rfl
      · have hd := natDigitsAux_four (n + 1) n h3 (by omega) (by omega)
        rw [natToStr, padStart_data, hd]
        rfl

theorem digChar_lt {x y : Nat} (h : x % 10 < y % 10) : digChar x < digChar y := by
  have hall : ∀ u : Nat, u < 10 → ∀ v : Nat, v < 10 → u < v →
      Char.ofNat (48 + u) < Char.ofNat (48 + v) := by decide
  exact hall (x % 10) (Nat.mod_lt x (by omega)) (y % 10) (Nat.mod_lt y (by omega)) h

theorem digChar_congr {x y : Nat} (h : x % 10 = y % 10) : digChar x = digChar y := by
  rw [digChar, digChar, h]

/-- Four-digit strings of numbers below 10000 compare lexicographically as
the numbers themselves compare. -/
theorem lex4_lt (a b : Nat) (hab : a < b) (hb : b ≤ 9999) :
    List.Lex (fun c1 c2 : Char => c1 < c2)
      [digChar (a / 10 / 10 / 10), digChar (a / 10 / 10), digChar (a / 10), digChar a]
      [digChar (b / 10 / 10 / 10), digChar (b / 10 / 10), digChar (b / 10), digChar b] := by
  rcases Nat.lt_or_ge (a / 10 / 10 / 10 % 10) (b / 10 / 10 / 10 % 10) with h1 | h1
  · exact List.Lex.rel (digChar_lt h1)
  · have e1 : a / 10 / 10 / 10 % 10 = b / 10 / 10 / 10 % 10 := by omega
    rw [digChar_congr e1]
    refine List.Lex.cons ?_
    rcases Nat.lt_or_ge (a / 10 / 10 % 10) (b / 10 / 10 % 10) with h2 | h2
    · exact List.Lex.rel (digChar_lt h2)
    · have e2 : a / 10 / 10 % 10 = b / 10 / 10 % 10 := by omega
      rw [digChar_congr e2]
      refine List.Lex.cons ?_
      rcases Nat.lt_or_ge (a / 10 % 10) (b / 10 % 10) with h3 | h3
      · exact List.Lex.rel (digChar_lt h3)
      · have e3 : a / 10 % 10 = b / 10 % 10 := by omega
        rw [digChar_congr e3]
        refine List.Lex.cons ?_
        exact List.Lex.rel (digChar_lt (by omega))

theorem lex_append_left (p l1 l2 : List Char)
    (h : List.Lex (fun c1 c2 : Char => c1 < c2) l1 l2) :
    List.Lex (fun c1 c2 : Char => c1 < c2) (p ++ l1) (p ++ l2) := by
  induction p with
  | nil => simpa using h
  | cons c cs ih => exact List.Lex.cons ih

/-- Modelled from the spec: the sequence policy of ReceiptNumberGenerator.
Its code is not under src — only the timestamp policy is — but README.md
documents the auto-incrementing RCT-YYYY-XXXX numbering and the spec gives
the contract: `format(seq) = "RCT-{YYYY}-{seq zero-padded to 4 digits}"`
using the current calendar year (threaded here as the explicit `year`
parameter). -/
def generateReceiptNumberSeq (year seq : Nat) : String :=
  "RCT-" ++ natToStr year ++ "-" ++ padStart (natToStr seq) 4 '0'

/-- Claim C4: sequence-policy receipt numbers have the shape
"RCT-{YYYY}-{seq zero-padded to 4 digits}", and for a fixed year they are
strictly increasing lexicographically in the sequence argument (throughout
the four-digit range the zero padding supports). -/
theorem claim_C4 (year s1 s2 : Nat) :
    generateReceiptNumberSeq 2025 7 = "RCT-2025-0007" ∧
    (s1 < s2 → s2 ≤ 9999 →
      generateReceiptNumberSeq year s1 < generateReceiptNumberSeq year s2) := by
  constructor
  · decide
  · intro h12 hb
    rw [String.lt_iff_toList_lt]
    show List.Lex (fun c1 c2 : Char => c1 < c2)
      (generateReceiptNumberSeq year s1).data ((generateReceiptNumberSeq year s2).data)
    have hd : ∀ s : Nat, (generateReceiptNumberSeq year s).data =
        (("RCT-" ++ natToStr year ++ "-" : String)).data ++ (padStart (natToStr s) 4 '0').data := by
      intro s
      rw [generateReceiptNumberSeq]
      simp only [String.data_append, List.append_assoc]
    rw [hd s1, hd s2, pad4_data s1 (by omega), pad4_data s2 hb]
    exact lex_append_left _ _ _ (lex4_lt s1 s2 h12 hb)

/-- Witness for claim C4: format(1) is lexicographically below format(2) in
the year 2025. -/
theorem claim_C4_witness :
    generateReceiptNumberSeq 2025 1 < generateReceiptNumberSeq 2025 2 :=
  (claim_C4 2025 1 2).2 (by decide) (by decide)
